import Mathlib

/-!
# Verification of the refresh orchestration and data-merging pipeline

Shallow embedding of the core of `vscode-claude-usage-monitor`:
the backoff/retry primitive (`src/utils/retry.ts`), the local data source
(`ClaudeDataService` in `src/services/FileWatcher.ts`), the remote quota
source (`src/services/ClaudeAPIService.ts`), the debounced change notifier
(`FileWatcher`), and the refresh orchestrator
(`src/services/RefreshManager.ts`).

Modelling conventions:
* JavaScript numbers used as integral quantities (timestamps, token counts,
  status codes) become `Int`/`Nat`; quantities that carry fractional values
  (delays before `Math.floor`, the `Math.random()` draw) become `ℚ`.
* Asynchronous operations become explicit oracles: the outcome of attempt
  `i` of a network call is a function argument `Nat → _`, the random jitter
  draw is `random : Nat → ℚ`, the local file system is an explicit value.
* ISO `YYYY-MM-DD` date strings are order-isomorphic to epoch-day indices,
  so dates are embedded as `Int` day numbers; the string comparisons
  (`===`, `>=`) of the source become `=` and `≤` on day numbers.
* Fallible code returns `Except`/`Option`.
-/

deriving instance DecidableEq for Except

/-! ## Backoff/Retry primitive (`src/utils/retry.ts`) -/

/-- `RetryOptions` of `retry.ts`, with all fields required (the source merges
user options over `DEFAULT_OPTIONS`, producing a fully populated record).
`maxAttempts` stays an `Int` because the JS `number` may be non-positive. -/
structure RetryOptions (E : Type) where
  maxAttempts : Int
  initialDelayMs : ℚ
  maxDelayMs : ℚ
  backoffMultiplier : ℚ
  jitter : Bool
  isRetryable : E → Bool

/-- `DEFAULT_OPTIONS` of `retry.ts`. -/
def defaultRetryOptions (E : Type) : RetryOptions E :=
  { maxAttempts := 3
    initialDelayMs := 1000
    maxDelayMs := 10000
    backoffMultiplier := 2
    jitter := true
    isRetryable := fun _ => true }

/-- `calculateDelay` of `retry.ts`: exponential backoff capped at
`maxDelayMs`, then (when `jitter` is on) inflated by `delay * 0.5 * random`
where `random` is the `Math.random()` draw, and finally `Math.floor`ed. -/
def calculateDelay (attempt : Nat) (initialDelayMs maxDelayMs backoffMultiplier : ℚ)
    (jitter : Bool) (random : ℚ) : Int :=
  let delay := initialDelayMs * backoffMultiplier ^ attempt
  let capped := if delay ≤ maxDelayMs then delay else maxDelayMs
  let jittered := if jitter then capped + capped * (1/2) * random else capped
  jittered.floor

/-- Observable outcome of a `withRetry` run: the settled value (`.error none`
models rejecting with the JS `undefined` value, `.error (some e)` rejecting
with the thrown error `e`), the list of inserted sleep durations in order,
and how many times the wrapped operation was invoked. -/
structure RetryRun (E A : Type) where
  result : Except (Option E) A
  delays : List Int
  calls : Nat
  deriving DecidableEq, Repr

/-- The `for` loop of `withRetry`, by recursion on the number of remaining
iterations (`fuel = maxAttempts - attempt`, so the guard
`attempt < maxAttempts - 1` of the source becomes `0 < fuel'` for the
tail `fuel'`).  `fn i` is the settled outcome of invocation `i` of the
wrapped operation; `random i` the `Math.random()` draw of iteration `i`. -/
def withRetryGo {E A : Type} (fn : Nat → Except E A) (opts : RetryOptions E)
    (random : Nat → ℚ) : Nat → Nat → Option E → RetryRun E A
  | 0, _, lastError => ⟨.error lastError, [], 0⟩
  | fuel + 1, attempt, _ =>
    match fn attempt with
    | .ok a => ⟨.ok a, [], 1⟩
    | .error e =>
      if opts.isRetryable e = false then ⟨.error (some e), [], 1⟩
      else if 0 < fuel then
        let d := calculateDelay attempt opts.initialDelayMs opts.maxDelayMs
          opts.backoffMultiplier opts.jitter (random attempt)
        let rest := withRetryGo fn opts random fuel (attempt + 1) (some e)
        ⟨rest.result, d :: rest.delays, rest.calls + 1⟩
      else
        let rest := withRetryGo fn opts random fuel (attempt + 1) (some e)
        ⟨rest.result, rest.delays, rest.calls + 1⟩

/-- `withRetry` of `retry.ts`: run the loop from attempt `0` with
`lastError = undefined`. -/
def withRetry {E A : Type} (fn : Nat → Except E A) (opts : RetryOptions E)
    (random : Nat → ℚ) : RetryRun E A :=
  withRetryGo fn opts random opts.maxAttempts.toNat 0 none

/-- `isRetryableHttpStatus` of `retry.ts`. -/
def isRetryableHttpStatus (statusCode : Nat) : Bool :=
  statusCode ∈ [408, 429, 500, 502, 503, 504]

example : withRetry (fun _ => (.error 7 : Except Nat Nat))
    { defaultRetryOptions Nat with jitter := false } (fun _ => 0) =
    ⟨.error (some 7), [1000, 2000], 3⟩ := by
  norm_num [withRetry, withRetryGo, defaultRetryOptions, calculateDelay, Rat.floor_def']

example : withRetry (fun i => if i = 1 then .ok 5 else (.error 7 : Except Nat Nat))
    { defaultRetryOptions Nat with jitter := false } (fun _ => 0) =
    ⟨.ok 5, [1000], 2⟩ := by
  norm_num [withRetry, withRetryGo, defaultRetryOptions, calculateDelay, Rat.floor_def']

example : withRetry (fun _ => (.error 7 : Except Nat Nat))
    { defaultRetryOptions Nat with maxAttempts := 0 } (fun _ => 0) =
    ⟨.error none, [], 0⟩ := by decide

/-! ### Structural lemmas about the retry loop -/

theorem withRetryGo_calls_pos {E A : Type} (fn : Nat → Except E A) (opts : RetryOptions E)
    (random : Nat → ℚ) (fuel attempt : Nat) (le : Option E) :
    1 ≤ (withRetryGo fn opts random (fuel + 1) attempt le).calls := by
  rcases h : fn attempt with e | a
  · by_cases hr : opts.isRetryable e = false
    · simp [withRetryGo, h, hr]
    · by_cases hf : 0 < fuel
      · simp [withRetryGo, h, hr, hf]
      · simp [withRetryGo, h, hr, hf]
  · simp [withRetryGo, h]

theorem withRetryGo_calls_le {E A : Type} (fn : Nat → Except E A) (opts : RetryOptions E)
    (random : Nat → ℚ) :
    ∀ fuel attempt le, (withRetryGo fn opts random fuel attempt le).calls ≤ fuel := by
  intro fuel
  induction fuel with
  | zero => intro attempt le; simp [withRetryGo]
  | succ f ih =>
    intro attempt le
    rcases h : fn attempt with e | a
    · by_cases hr : opts.isRetryable e = false
      · simp [withRetryGo, h, hr]
      · have hrest := ih (attempt + 1) (some e)
        by_cases hf : 0 < f
        · simp [withRetryGo, h, hr, hf]
          omega
        · simp [withRetryGo, h, hr, hf]
          omega
    · simp [withRetryGo, h]

/-- "Don't delay after the last attempt": every executed attempt except the
final one contributes exactly one sleep, so there is always one delay fewer
than there are invocations. -/
theorem withRetryGo_delays_length {E A : Type} (fn : Nat → Except E A) (opts : RetryOptions E)
    (random : Nat → ℚ) :
    ∀ fuel attempt le, (withRetryGo fn opts random fuel attempt le).delays.length =
      (withRetryGo fn opts random fuel attempt le).calls - 1 := by
  intro fuel
  induction fuel with
  | zero => intro attempt le; simp [withRetryGo]
  | succ f ih =>
    intro attempt le
    rcases h : fn attempt with e | a
    · by_cases hr : opts.isRetryable e = false
      · simp [withRetryGo, h, hr]
      · by_cases hf : 0 < f
        · obtain ⟨g, rfl⟩ : ∃ g, f = g + 1 := ⟨f - 1, by omega⟩
          have h1 := withRetryGo_calls_pos fn opts random g (attempt + 1) (some e)
          have h2 := ih (attempt + 1) (some e)
          simp [withRetryGo, h, hr] at h1 h2 ⊢
          omega
        · have hf0 : f = 0 := by omega
          subst hf0
          simp [withRetryGo, h, hr]
    · simp [withRetryGo, h]

theorem rat_floor_eq_intFloor (q : ℚ) : q.floor = ⌊q⌋ :=
  (Rat.floor_def' q).trans Rat.floor_def.symm

/-- `calculateDelay` computes exactly the specified
`min(initialDelay * backoffMultiplier ^ attempt, maxDelay)`, inflated by the
factor `1 + random/2` when jitter is on, rounded down. -/
theorem calculateDelay_formula (t : Nat) (i m b : ℚ) (jit : Bool) (r : ℚ) :
    calculateDelay t i m b jit r =
      (min (i * b ^ t) m * (if jit then 1 + (1/2) * r else 1)).floor := by
  simp only [calculateDelay, min_def]
  cases jit
  · simp
  · simp only [if_true]
    congr 1
    ring

/-- With jitter on and a uniform draw in `[0, 1]`, the computed delay lies
between the base backoff value and 150% of it. -/
theorem calculateDelay_bounds (t : Nat) (i m r : ℚ) (b : ℚ)
    (hi : 0 ≤ i) (hb : 0 ≤ b) (hm : 0 ≤ m) (hr0 : 0 ≤ r) (hr1 : r ≤ 1) :
    (min (i * b ^ t) m).floor ≤ calculateDelay t i m b true r ∧
      calculateDelay t i m b true r ≤ ((3/2 : ℚ) * min (i * b ^ t) m).floor := by
  have hbase : 0 ≤ min (i * b ^ t) m := le_min (by positivity) hm
  rw [calculateDelay_formula]
  simp only [if_true, rat_floor_eq_intFloor]
  constructor
  · apply Int.floor_mono
    nlinarith [mul_nonneg hbase hr0]
  · apply Int.floor_mono
    nlinarith [mul_nonneg hbase (by linarith : (0:ℚ) ≤ 1 - r)]

theorem range_succ_map_add {α : Type} (g : Nat → α) (n attempt : Nat) :
    (List.range (n + 1)).map (fun t => g (attempt + t)) =
      g attempt :: (List.range n).map (fun t => g (attempt + 1 + t)) := by
  simp only [List.range_succ_eq_map, List.map_cons, List.map_map, Nat.add_zero]
  congr 1
  apply List.map_congr_left
  intro t _
  simp only [Function.comp_apply]
  congr 1
  omega

/-- One step of the loop when the current attempt fails retryably and
attempts remain: a delay is inserted and the loop recurses. -/
theorem withRetryGo_retry_step {E A : Type} (fn : Nat → Except E A) (opts : RetryOptions E)
    (random : Nat → ℚ) (fuel attempt : Nat) (le : Option E) (e : E)
    (he : fn attempt = .error e) (hr : opts.isRetryable e = true) (hf : 0 < fuel) :
    withRetryGo fn opts random (fuel + 1) attempt le =
      ⟨(withRetryGo fn opts random fuel (attempt + 1) (some e)).result,
       calculateDelay attempt opts.initialDelayMs opts.maxDelayMs opts.backoffMultiplier
         opts.jitter (random attempt) ::
         (withRetryGo fn opts random fuel (attempt + 1) (some e)).delays,
       (withRetryGo fn opts random fuel (attempt + 1) (some e)).calls + 1⟩ := by
  conv_lhs => simp only [withRetryGo]
  simp [he, hr, hf]

/-- When every executed attempt fails retryably, the loop runs `fuel`
attempts, sleeps after each non-final one, and propagates the error of the
final attempt. -/
theorem withRetryGo_all_retryable {E A : Type} (fn : Nat → Except E A) (opts : RetryOptions E)
    (random : Nat → ℚ) :
    ∀ fuel attempt le, 1 ≤ fuel →
    (∀ j, j < fuel → ∃ e, fn (attempt + j) = .error e ∧ opts.isRetryable e = true) →
    ∃ e, fn (attempt + (fuel - 1)) = .error e ∧
      withRetryGo fn opts random fuel attempt le =
        ⟨.error (some e),
         (List.range (fuel - 1)).map (fun t => calculateDelay (attempt + t) opts.initialDelayMs
           opts.maxDelayMs opts.backoffMultiplier opts.jitter (random (attempt + t))),
         fuel⟩ := by
  intro fuel
  induction fuel with
  | zero => intro attempt le h0; omega
  | succ f ih =>
    intro attempt le _ hall
    obtain ⟨e0, he0, hr0⟩ := hall 0 (by omega)
    rw [Nat.add_zero] at he0
    by_cases hf : 1 ≤ f
    · obtain ⟨e, he, heq⟩ := ih (attempt + 1) (some e0) hf (fun j hj => by
        obtain ⟨e', h1, h2⟩ := hall (j + 1) (by omega)
        exact ⟨e', by rwa [show attempt + 1 + j = attempt + (j + 1) by omega], h2⟩)
      refine ⟨e, ?_, ?_⟩
      · rwa [show attempt + (f + 1 - 1) = attempt + 1 + (f - 1) by omega]
      · obtain ⟨g, rfl⟩ : ∃ g, f = g + 1 := ⟨f - 1, by omega⟩
        rw [withRetryGo_retry_step fn opts random (g + 1) attempt le e0 he0 hr0 (by omega), heq]
        simp only [Nat.add_sub_cancel]
        rw [range_succ_map_add (fun u => calculateDelay u opts.initialDelayMs opts.maxDelayMs
          opts.backoffMultiplier opts.jitter (random u)) g attempt]
    · have hf0 : f = 0 := by omega
      subst hf0
      refine ⟨e0, by simpa using he0, ?_⟩
      simp [withRetryGo, he0, hr0]

/-- After `k` retryable failures, the run stops at attempt `k` when that
attempt either succeeds or fails non-retryably: `k + 1` invocations, one
delay per preceding attempt, and the outcome of attempt `k` is returned. -/
theorem withRetryGo_stops {E A : Type} (fn : Nat → Except E A) (opts : RetryOptions E)
    (random : Nat → ℚ) :
    ∀ k fuel attempt le res,
      k + 1 ≤ fuel →
      (∀ j, j < k → ∃ e, fn (attempt + j) = .error e ∧ opts.isRetryable e = true) →
      ((∃ a, fn (attempt + k) = .ok a ∧ res = Except.ok a) ∨
       (∃ e, fn (attempt + k) = .error e ∧ opts.isRetryable e = false ∧
          res = Except.error (some e))) →
      withRetryGo fn opts random fuel attempt le =
        ⟨res,
         (List.range k).map (fun t => calculateDelay (attempt + t) opts.initialDelayMs
           opts.maxDelayMs opts.backoffMultiplier opts.jitter (random (attempt + t))),
         k + 1⟩ := by
  intro k
  induction k with
  | zero =>
    intro fuel attempt le res hk hpre hout
    obtain ⟨m, rfl⟩ : ∃ m, fuel = m + 1 := ⟨fuel - 1, by omega⟩
    rcases hout with ⟨a, ha, rfl⟩ | ⟨e, he, hr, rfl⟩
    · rw [Nat.add_zero] at ha
      simp [withRetryGo, ha]
    · rw [Nat.add_zero] at he
      simp [withRetryGo, he, hr]
  | succ k ih =>
    intro fuel attempt le res hk hpre hout
    obtain ⟨e0, he0, hr0⟩ := hpre 0 (by omega)
    rw [Nat.add_zero] at he0
    obtain ⟨m, rfl⟩ : ∃ m, fuel = m + 1 := ⟨fuel - 1, by omega⟩
    have hm : k + 1 ≤ m := by omega
    have hpre' : ∀ j, j < k → ∃ e, fn (attempt + 1 + j) = .error e ∧
        opts.isRetryable e = true := fun j hj => by
      obtain ⟨e', h1, h2⟩ := hpre (j + 1) (by omega)
      exact ⟨e', by rwa [show attempt + 1 + j = attempt + (j + 1) by omega], h2⟩
    have hout' : (∃ a, fn (attempt + 1 + k) = .ok a ∧ res = Except.ok a) ∨
        (∃ e, fn (attempt + 1 + k) = .error e ∧ opts.isRetryable e = false ∧
          res = Except.error (some e)) := by
      rcases hout with ⟨a, ha, hres⟩ | ⟨e, he, hr, hres⟩
      · exact .inl ⟨a, by rwa [show attempt + 1 + k = attempt + (k + 1) by omega], hres⟩
      · exact .inr ⟨e, by rwa [show attempt + 1 + k = attempt + (k + 1) by omega], hr, hres⟩
    rw [withRetryGo_retry_step fn opts random m attempt le e0 he0 hr0 (by omega),
      ih m (attempt + 1) (some e0) res hm hpre' hout']
    simp only
    rw [range_succ_map_add (fun u => calculateDelay u opts.initialDelayMs opts.maxDelayMs
      opts.backoffMultiplier opts.jitter (random u)) k attempt]

/-- C2: for every retry configuration and operation, `withRetry`
(a) computes the wait as `min(initialDelay * backoffMultiplier^attemptIndex,
maxDelay)` optionally inflated by jitter, (b) the jitter inflation is at most
50% for a uniform draw in `[0,1]`, (c) a non-retryable failure propagates
immediately with no further attempt, (d) when every attempt fails retryably
the last failure is propagated after the final attempt, and (e) no delay is
inserted after the last executed attempt. -/
theorem withRetry_backoff_spec {E A : Type} (opts : RetryOptions E) (fn : Nat → Except E A)
    (random : Nat → ℚ) :
    (∀ t, calculateDelay t opts.initialDelayMs opts.maxDelayMs opts.backoffMultiplier
        opts.jitter (random t) =
      (min (opts.initialDelayMs * opts.backoffMultiplier ^ t) opts.maxDelayMs *
        (if opts.jitter then 1 + (1/2) * random t else 1)).floor) ∧
    (∀ t, opts.jitter = true → 0 ≤ opts.initialDelayMs → 0 ≤ opts.backoffMultiplier →
        0 ≤ opts.maxDelayMs → 0 ≤ random t → random t ≤ 1 →
      (min (opts.initialDelayMs * opts.backoffMultiplier ^ t) opts.maxDelayMs).floor ≤
          calculateDelay t opts.initialDelayMs opts.maxDelayMs opts.backoffMultiplier
            opts.jitter (random t) ∧
        calculateDelay t opts.initialDelayMs opts.maxDelayMs opts.backoffMultiplier
            opts.jitter (random t) ≤
          ((3/2 : ℚ) * min (opts.initialDelayMs * opts.backoffMultiplier ^ t)
            opts.maxDelayMs).floor) ∧
    (∀ k e, k < opts.maxAttempts.toNat →
      (∀ j, j < k → ∃ ej, fn j = .error ej ∧ opts.isRetryable ej = true) →
      fn k = .error e → opts.isRetryable e = false →
      withRetry fn opts random =
        ⟨.error (some e),
         (List.range k).map (fun t => calculateDelay t opts.initialDelayMs opts.maxDelayMs
           opts.backoffMultiplier opts.jitter (random t)),
         k + 1⟩) ∧
    (1 ≤ opts.maxAttempts.toNat →
      (∀ j, j < opts.maxAttempts.toNat → ∃ ej, fn j = .error ej ∧ opts.isRetryable ej = true) →
      ∃ e, fn (opts.maxAttempts.toNat - 1) = .error e ∧
        withRetry fn opts random =
          ⟨.error (some e),
           (List.range (opts.maxAttempts.toNat - 1)).map (fun t => calculateDelay t
             opts.initialDelayMs opts.maxDelayMs opts.backoffMultiplier opts.jitter (random t)),
           opts.maxAttempts.toNat⟩) ∧
    (withRetry fn opts random).delays.length = (withRetry fn opts random).calls - 1 := by
  refine ⟨fun t => calculateDelay_formula t _ _ _ _ _,
    fun t hj h1 h2 h3 hr0 hr1 => by
      rw [hj]
      exact calculateDelay_bounds t _ _ _ _ h1 h2 h3 hr0 hr1, ?_, ?_, ?_⟩
  · intro k e hk hpre he hr
    have h := withRetryGo_stops fn opts random k opts.maxAttempts.toNat 0 none
      (Except.error (some e)) (by omega) (fun j hj => by simpa using hpre j hj)
      (.inr ⟨e, by simpa using he, hr, rfl⟩)
    simpa [withRetry] using h
  · intro h1 hall
    obtain ⟨e, he, heq⟩ := withRetryGo_all_retryable fn opts random opts.maxAttempts.toNat 0
      none h1 (fun j hj => by simpa using hall j hj)
    exact ⟨e, by simpa using he, by simpa [withRetry] using heq⟩
  · exact withRetryGo_delays_length fn opts random opts.maxAttempts.toNat 0 none

/-- Witness for C2: concrete runs with `maxAttempts = 3`,
`initialDelayMs = 1000`, `maxDelayMs = 10000`, `backoffMultiplier = 2`,
jitter on with draw `1/2`, and retry predicate "error 7 is retryable":
an all-retryable-failures run propagates the last error after 3 calls with
2 delays, a non-retryable first failure propagates after 1 call with no
delay, and the jittered first delay lies between 1000 and 1500. -/
theorem withRetry_backoff_spec_witness :
    (withRetry (fun _ => (.error 7 : Except Nat Nat))
        ⟨3, 1000, 10000, 2, true, fun e => decide (e = 7)⟩ (fun _ => 1/2) =
      ⟨.error (some 7),
       (List.range 2).map (fun t => calculateDelay t 1000 10000 2 true (1/2)), 3⟩) ∧
    (withRetry (fun _ => (.error 9 : Except Nat Nat))
        ⟨3, 1000, 10000, 2, true, fun e => decide (e = 7)⟩ (fun _ => 1/2) =
      ⟨.error (some 9), [], 1⟩) ∧
    ((min ((1000 : ℚ) * 2 ^ 0) 10000).floor ≤ calculateDelay 0 1000 10000 2 true (1/2) ∧
      calculateDelay 0 1000 10000 2 true (1/2) ≤
        ((3/2 : ℚ) * min ((1000 : ℚ) * 2 ^ 0) 10000).floor) := by
  refine ⟨?_, ?_, ?_⟩
  · obtain ⟨e, he, heq⟩ := (withRetry_backoff_spec
      (⟨3, 1000, 10000, 2, true, fun e => decide (e = 7)⟩ : RetryOptions Nat)
      (fun _ => (.error 7 : Except Nat Nat)) (fun _ => 1/2)).2.2.2.1
      (by decide) (fun j _ => ⟨7, rfl, by decide⟩)
    have he' : e = 7 := by simpa using he.symm
    subst he'
    simpa using heq
  · have h := (withRetry_backoff_spec
      (⟨3, 1000, 10000, 2, true, fun e => decide (e = 7)⟩ : RetryOptions Nat)
      (fun _ => (.error 9 : Except Nat Nat)) (fun _ => 1/2)).2.2.1 0 9
      (by decide) (fun j hj => absurd hj (by omega)) rfl (by decide)
    simpa using h
  · have h := (withRetry_backoff_spec
      (⟨3, 1000, 10000, 2, true, fun e => decide (e = 7)⟩ : RetryOptions Nat)
      (fun _ => (.error 7 : Except Nat Nat)) (fun _ => 1/2)).2.1 0
      rfl (by norm_num) (by norm_num) (by norm_num) (by norm_num) (by norm_num)
    simpa using h

/-- C10: with a non-positive `maxAttempts` the wrapped operation is never
invoked and the run settles by throwing the JS `undefined` value (modelled
`.error none`, distinct from every thrown error `.error (some e)`); and the
operation is never invoked more than `maxAttempts` times. -/
theorem withRetry_maxAttempts_zero {E A : Type} (opts : RetryOptions E)
    (fn : Nat → Except E A) (random : Nat → ℚ) :
    (opts.maxAttempts ≤ 0 → withRetry fn opts random = ⟨.error none, [], 0⟩) ∧
    (withRetry fn opts random).calls ≤ opts.maxAttempts.toNat ∧
    (1 ≤ opts.maxAttempts → ((withRetry fn opts random).calls : Int) ≤ opts.maxAttempts) := by
  refine ⟨?_, ?_, ?_⟩
  · intro h
    have h0 : opts.maxAttempts.toNat = 0 := Int.toNat_of_nonpos h
    simp [withRetry, h0, withRetryGo]
  · exact withRetryGo_calls_le fn opts random opts.maxAttempts.toNat 0 none
  · intro h1
    have h : (withRetry fn opts random).calls ≤ opts.maxAttempts.toNat :=
      withRetryGo_calls_le fn opts random opts.maxAttempts.toNat 0 none
    omega

/-- Witness for C10: with `maxAttempts = 0` the operation is not invoked and
the result is a rejection with `undefined`; with the default options (3
attempts) at most 3 invocations happen. -/
theorem withRetry_maxAttempts_zero_witness :
    (withRetry (fun _ => (.error 3 : Except Nat Nat))
        { defaultRetryOptions Nat with maxAttempts := 0 } (fun _ => 0) =
      ⟨.error none, [], 0⟩) ∧
    ((withRetry (fun _ => (.error 3 : Except Nat Nat))
        (defaultRetryOptions Nat) (fun _ => 0)).calls : Int) ≤ 3 := by
  constructor
  · exact (withRetry_maxAttempts_zero _ _ _).1 (by decide)
  · exact (withRetry_maxAttempts_zero (defaultRetryOptions Nat)
      (fun _ => (.error 3 : Except Nat Nat)) (fun _ => 0)).2.2 (by decide)

/-! ## Data model (`src/models/UsageMetrics.ts`)

Dates: an ISO `YYYY-MM-DD` string is order-isomorphic to its epoch-day
index, so `date` fields, `getTodayDateString` results and the week-ago
cutoff are embedded as `Int` day numbers; the source's string `===` and
`>=` become `=` and `≤`.  JS objects used as string-keyed maps become
association lists. -/

/-- `QuotaUsage` of `UsageMetrics.ts`. -/
structure QuotaUsage where
  utilization : ℚ
  resets_at : Option String
  deriving DecidableEq, Repr

/-- `QuotaData` of `UsageMetrics.ts`. -/
structure QuotaData where
  five_hour : Option QuotaUsage
  seven_day : Option QuotaUsage
  seven_day_oauth_apps : Option QuotaUsage
  seven_day_opus : Option QuotaUsage
  deriving DecidableEq, Repr

/-- `ModelUsage` of `UsageMetrics.ts`. -/
structure ModelUsage where
  inputTokens : Nat
  outputTokens : Nat
  cacheReadInputTokens : Nat
  cacheCreationInputTokens : Nat
  webSearchRequests : Nat
  costUSD : ℚ
  contextWindow : Nat
  deriving DecidableEq, Repr

/-- `DailyActivity` of `UsageMetrics.ts`; `date` is an epoch-day index. -/
structure DailyActivity where
  date : Int
  messageCount : Nat
  sessionCount : Nat
  toolCallCount : Nat
  deriving DecidableEq, Repr

/-- `DailyModelTokens` of `UsageMetrics.ts`. -/
structure DailyModelTokens where
  date : Int
  tokensByModel : List (String × Nat)
  deriving DecidableEq, Repr

/-- `LongestSession` of `UsageMetrics.ts`. -/
structure LongestSession where
  sessionId : String
  duration : Nat
  messageCount : Nat
  timestamp : String
  deriving DecidableEq, Repr

/-- `StatsCache` of `UsageMetrics.ts` (the parsed `stats-cache.json`).
String-valued date metadata fields are kept opaque; `Option` captures JS
falsy fallbacks (`|| null`). -/
structure StatsCache where
  dailyActivity : List DailyActivity
  dailyModelTokens : List DailyModelTokens
  modelUsage : List (String × ModelUsage)
  totalSessions : Nat
  totalMessages : Nat
  longestSession : Option LongestSession
  firstSessionDate : Option String
  lastComputedDate : Option String
  hourCounts : List (String × Nat)
  deriving DecidableEq, Repr

/-- `OAuthCredentials` of `ClaudeAPIService.ts` / the `claudeAiOauth` block
of `UsageMetrics.ts`'s `Credentials`; `expiresAt` in epoch milliseconds. -/
structure OAuthCredentials where
  accessToken : String
  refreshToken : String
  expiresAt : Int
  scopes : List String
  subscriptionType : String
  rateLimitTier : String
  deriving DecidableEq, Repr

/-- The parsed credentials file.  `otherFields` stands for every JSON
member other than `claudeAiOauth`; `JSON.parse`/`JSON.stringify` carry them
through verbatim. -/
structure CredentialsFile where
  claudeAiOauth : Option OAuthCredentials
  otherFields : List (String × String)
  deriving DecidableEq, Repr

/-- `UsageMetrics` of `UsageMetrics.ts`; `lastUpdated` in epoch ms. -/
structure UsageMetrics where
  subscriptionType : String
  rateLimitTier : String
  todayTokens : Nat
  todayMessages : Nat
  todaySessions : Nat
  todayToolCalls : Nat
  modelUsage : List (String × ModelUsage)
  totalSessions : Nat
  totalMessages : Nat
  longestSession : Option LongestSession
  firstSessionDate : Option String
  lastComputedDate : Option String
  dailyActivity : List DailyActivity
  dailyModelTokens : List DailyModelTokens
  hourlyDistribution : List (String × Nat)
  totalInputTokens : Nat
  totalOutputTokens : Nat
  totalCacheReadTokens : Nat
  totalCacheCreationTokens : Nat
  quota : Option QuotaData
  quotaError : Option String
  lastUpdated : Int
  dataAvailable : Bool
  error : Option String
  deriving DecidableEq, Repr

/-- `createEmptyMetrics` of `UsageMetrics.ts`; `now` models `new Date()`. -/
def createEmptyMetrics (now : Int) : UsageMetrics :=
  { subscriptionType := "unknown"
    rateLimitTier := "unknown"
    todayTokens := 0
    todayMessages := 0
    todaySessions := 0
    todayToolCalls := 0
    modelUsage := []
    totalSessions := 0
    totalMessages := 0
    longestSession := none
    firstSessionDate := none
    lastComputedDate := none
    dailyActivity := []
    dailyModelTokens := []
    hourlyDistribution := []
    totalInputTokens := 0
    totalOutputTokens := 0
    totalCacheReadTokens := 0
    totalCacheCreationTokens := 0
    quota := none
    quotaError := none
    lastUpdated := now
    dataAvailable := false
    error := none }

/-! ## Local Data Source (`ClaudeDataService`, `src/services/FileWatcher.ts`) -/

/-- Environment seen by one `loadMetrics` call: whether the data directory
exists, the parse result of `stats-cache.json` (`none` = file absent or
`JSON.parse` failure), the parse result of `.credentials.json`, and the
clock (`Date.now()`, epoch ms). -/
structure DataEnv where
  dirExists : Bool
  statsCache : Option StatsCache
  credentials : Option CredentialsFile
  nowMs : Int
  deriving DecidableEq, Repr

/-- `getTodayDateString` of `FileWatcher.ts`:
`new Date().toISOString().split('T')[0]` is the **UTC** calendar date of the
clock instant, embedded as the epoch-day index `⌊nowMs / 86400000⌋`. -/
def getTodayDateString (nowMs : Int) : Int :=
  Int.fdiv nowMs 86400000

/-- The calendar date of the instant `nowMs` in a timezone that is
`offsetMs` ahead of UTC.  This is the "calendar date in local time" notion
the spec refers to — the source does *not* compute this. -/
def localCalendarDay (nowMs offsetMs : Int) : Int :=
  Int.fdiv (nowMs + offsetMs) 86400000

/-- Sum of the values of a JS object used as a numeric map
(`Object.values(o).reduce((sum, t) => sum + t, 0)`). -/
def sumValues (l : List (String × Nat)) : Nat :=
  (l.map (fun p => p.2)).sum

/-- `populateFromStatsCache` of `FileWatcher.ts`; `today` is the result of
`getTodayDateString` (passed explicitly because the source reads the clock
inside). -/
def populateFromStatsCache (today : Int) (metrics : UsageMetrics) (stats : StatsCache) :
    UsageMetrics :=
  let m := { metrics with
    modelUsage := stats.modelUsage
    totalSessions := stats.totalSessions
    totalMessages := stats.totalMessages
    firstSessionDate := stats.firstSessionDate
    lastComputedDate := stats.lastComputedDate
    dailyActivity := stats.dailyActivity
    dailyModelTokens := stats.dailyModelTokens
    hourlyDistribution := stats.hourCounts
    longestSession := stats.longestSession }
  let m := { m with
    totalInputTokens := m.totalInputTokens +
      (stats.modelUsage.map (fun p => p.2.inputTokens)).sum
    totalOutputTokens := m.totalOutputTokens +
      (stats.modelUsage.map (fun p => p.2.outputTokens)).sum
    totalCacheReadTokens := m.totalCacheReadTokens +
      (stats.modelUsage.map (fun p => p.2.cacheReadInputTokens)).sum
    totalCacheCreationTokens := m.totalCacheCreationTokens +
      (stats.modelUsage.map (fun p => p.2.cacheCreationInputTokens)).sum }
  let m := match stats.dailyActivity.find? (fun d => d.date = today) with
    | some todayActivity =>
      { m with
        todayMessages := todayActivity.messageCount
        todaySessions := todayActivity.sessionCount
        todayToolCalls := todayActivity.toolCallCount }
    | none => m
  match stats.dailyModelTokens.find? (fun d => d.date = today) with
  | some todayTokens => { m with todayTokens := sumValues todayTokens.tokensByModel }
  | none => m

/-- The `oauth.subscriptionType || 'unknown'` JS-falsy fallback (the typed
field can only be a string; the empty string is falsy). -/
def orUnknown (s : String) : String :=
  if s = "" then "unknown" else s

/-- `loadMetrics` of `FileWatcher.ts`.  Never throws: the only failure it
reports is the missing data directory; an absent or unparsable stats cache
or credentials file is silently treated as "no data". -/
def loadMetrics (env : DataEnv) : UsageMetrics :=
  let metrics := createEmptyMetrics env.nowMs
  if env.dirExists = false then
    { metrics with error := some "Claude data directory not found. Is Claude Code installed?" }
  else
    let metrics := match env.statsCache with
      | some stats => populateFromStatsCache (getTodayDateString env.nowMs) metrics stats
      | none => metrics
    let metrics := match env.credentials with
      | some file =>
        match file.claudeAiOauth with
        | some oauth =>
          { metrics with
            subscriptionType := orUnknown oauth.subscriptionType
            rateLimitTier := orUnknown oauth.rateLimitTier }
        | none => metrics
      | none => metrics
    { metrics with dataAvailable := true, lastUpdated := env.nowMs }

/-- Result record of `getWeeklyStats`. -/
structure WeeklyStats where
  messages : Nat
  tokens : Nat
  sessions : Nat
  deriving DecidableEq, Repr

/-- `getWeeklyStats` of `FileWatcher.ts`: `weekAgo` is today minus 7 days,
and an entry counts whenever `entry.date >= weekAgoStr`. -/
def getWeeklyStats (today : Int) (metrics : UsageMetrics) : WeeklyStats :=
  let weekAgo := today - 7
  let msgSess := metrics.dailyActivity.foldl
    (fun acc a => if weekAgo ≤ a.date then (acc.1 + a.messageCount, acc.2 + a.sessionCount)
      else acc) (0, 0)
  let tokens := metrics.dailyModelTokens.foldl
    (fun acc d => if weekAgo ≤ d.date then acc + sumValues d.tokensByModel else acc) 0
  ⟨msgSess.1, tokens, msgSess.2⟩

/-- The weekly aggregation the spec describes, written from its words:
sum over exactly the daily entries whose date lies in the trailing 7
calendar days inclusive of today, i.e. `today - 6 ≤ date ≤ today`. -/
def specWeeklyStats (today : Int) (metrics : UsageMetrics) : WeeklyStats :=
  let inWindow : Int → Bool := fun d => today - 6 ≤ d ∧ d ≤ today
  { messages := ((metrics.dailyActivity.filter (fun a => inWindow a.date)).map
      (fun a => a.messageCount)).sum
    tokens := ((metrics.dailyModelTokens.filter (fun d => inWindow d.date)).map
      (fun d => sumValues d.tokensByModel)).sum
    sessions := ((metrics.dailyActivity.filter (fun a => inWindow a.date)).map
      (fun a => a.sessionCount)).sum }

theorem foldl_if_filter_sum {α : Type} (p : α → Prop) [DecidablePred p] (f : α → Nat)
    (l : List α) (a : Nat) :
    l.foldl (fun acc x => if p x then acc + f x else acc) a =
      a + ((l.filter (fun x => decide (p x))).map f).sum := by
  induction l generalizing a with
  | nil => simp
  | cons x xs ih =>
    by_cases hp : p x <;> simp [hp, ih, Nat.add_assoc]

theorem foldl_if_filter_sum_pair {α : Type} (p : α → Prop) [DecidablePred p] (f g : α → Nat)
    (l : List α) (a b : Nat) :
    l.foldl (fun acc x => if p x then (acc.1 + f x, acc.2 + g x) else acc) (a, b) =
      (a + ((l.filter (fun x => decide (p x))).map f).sum,
       b + ((l.filter (fun x => decide (p x))).map g).sum) := by
  induction l generalizing a b with
  | nil => simp
  | cons x xs ih =>
    by_cases hp : p x <;> simp [hp, ih, Nat.add_assoc]

/-- C4 (amended): `getWeeklyStats` sums messages, sessions and per-model
tokens over exactly the daily entries whose date is `≥ today − 7`: an
**8**-calendar-day window inclusive of today (future-dated entries also
count); only entries dated strictly before `today − 7` contribute
nothing. -/
theorem getWeeklyStats_eight_day_window (today : Int) (m : UsageMetrics) :
    getWeeklyStats today m =
      { messages := ((m.dailyActivity.filter (fun a => today - 7 ≤ a.date)).map
          (fun a => a.messageCount)).sum
        tokens := ((m.dailyModelTokens.filter (fun d => today - 7 ≤ d.date)).map
          (fun d => sumValues d.tokensByModel)).sum
        sessions := ((m.dailyActivity.filter (fun a => today - 7 ≤ a.date)).map
          (fun a => a.sessionCount)).sum } := by
  simp only [getWeeklyStats]
  rw [foldl_if_filter_sum_pair (fun a : DailyActivity => today - 7 ≤ a.date)
      (fun a => a.messageCount) (fun a => a.sessionCount) m.dailyActivity 0 0,
    foldl_if_filter_sum (fun d : DailyModelTokens => today - 7 ≤ d.date)
      (fun d => sumValues d.tokensByModel) m.dailyModelTokens 0]
  simp

/-- Counterexample to C4 as stated: with `today = 10`, the daily entry dated
`3` lies exactly 7 days before today — outside the trailing 7 calendar days
(`4..10`) — yet `getWeeklyStats` counts its 5 messages and 2 sessions,
differing from the spec's 7-day aggregation which yields all zeros. -/
theorem getWeeklyStats_trailing7_counterexample :
    getWeeklyStats 10 { createEmptyMetrics 0 with dailyActivity := [⟨3, 5, 2, 0⟩] } =
      ⟨5, 0, 2⟩ ∧
    specWeeklyStats 10 { createEmptyMetrics 0 with dailyActivity := [⟨3, 5, 2, 0⟩] } =
      ⟨0, 0, 0⟩ ∧
    getWeeklyStats 10 { createEmptyMetrics 0 with dailyActivity := [⟨3, 5, 2, 0⟩] } ≠
      specWeeklyStats 10 { createEmptyMetrics 0 with dailyActivity := [⟨3, 5, 2, 0⟩] } := by
  refine ⟨by decide, by decide, by decide⟩

theorem populateFromStatsCache_today (today : Int) (metrics : UsageMetrics)
    (stats : StatsCache) :
    (populateFromStatsCache today metrics stats).todayMessages =
      ((stats.dailyActivity.find? (fun d => d.date = today)).map
        (fun d => d.messageCount)).getD metrics.todayMessages ∧
    (populateFromStatsCache today metrics stats).todaySessions =
      ((stats.dailyActivity.find? (fun d => d.date = today)).map
        (fun d => d.sessionCount)).getD metrics.todaySessions ∧
    (populateFromStatsCache today metrics stats).todayToolCalls =
      ((stats.dailyActivity.find? (fun d => d.date = today)).map
        (fun d => d.toolCallCount)).getD metrics.todayToolCalls ∧
    (populateFromStatsCache today metrics stats).todayTokens =
      ((stats.dailyModelTokens.find? (fun d => d.date = today)).map
        (fun d => sumValues d.tokensByModel)).getD metrics.todayTokens := by
  simp only [populateFromStatsCache]
  rcases hact : stats.dailyActivity.find? (fun d => d.date = today) with _ | a <;>
    rcases htok : stats.dailyModelTokens.find? (fun d => d.date = today) with _ | t <;>
      simp [hact, htok]

/-- C5 (amended): `loadMetrics` populates today's counters from the
daily-activity entry and daily-token entry whose date equals the **UTC**
calendar date of the clock (the source uses `toISOString`, not local time);
when no entry matches, the counters stay zero — no fallback to the most
recent day. -/
theorem loadMetrics_today_counters (env : DataEnv) (stats : StatsCache)
    (hdir : env.dirExists = true) (hstats : env.statsCache = some stats) :
    (loadMetrics env).todayMessages =
      ((stats.dailyActivity.find? (fun d => d.date = getTodayDateString env.nowMs)).map
        (fun d => d.messageCount)).getD 0 ∧
    (loadMetrics env).todaySessions =
      ((stats.dailyActivity.find? (fun d => d.date = getTodayDateString env.nowMs)).map
        (fun d => d.sessionCount)).getD 0 ∧
    (loadMetrics env).todayToolCalls =
      ((stats.dailyActivity.find? (fun d => d.date = getTodayDateString env.nowMs)).map
        (fun d => d.toolCallCount)).getD 0 ∧
    (loadMetrics env).todayTokens =
      ((stats.dailyModelTokens.find? (fun d => d.date = getTodayDateString env.nowMs)).map
        (fun d => sumValues d.tokensByModel)).getD 0 := by
  have hpop := populateFromStatsCache_today (getTodayDateString env.nowMs)
    (createEmptyMetrics env.nowMs) stats
  simp only [createEmptyMetrics] at hpop
  simp only [loadMetrics, hdir, hstats]
  rcases hcred : env.credentials with _ | file
  · refine ⟨?_, ?_, ?_, ?_⟩ <;>
      simp [hcred, hpop.1, hpop.2.1, hpop.2.2.1, hpop.2.2.2, createEmptyMetrics]
  · rcases hoauth : file.claudeAiOauth with _ | oauth <;>
      refine ⟨?_, ?_, ?_, ?_⟩ <;>
        simp [hcred, hoauth, hpop.1, hpop.2.1, hpop.2.2.1, hpop.2.2.2, createEmptyMetrics]

/-- Counterexample to C5 as stated: at clock `84600000` ms (23:30 UTC of
epoch day 0) in a timezone one hour ahead of UTC, the local calendar date is
day 1; the cache has a daily-activity entry dated day 1 with
`messageCount = 42`, yet `loadMetrics` leaves `todayMessages = 0` because
the source matches the **UTC** date (day 0), not the local one. -/
theorem loadMetrics_localTime_counterexample :
    localCalendarDay 84600000 3600000 = 1 ∧
    getTodayDateString 84600000 = 0 ∧
    (List.find? (fun d => d.date = localCalendarDay 84600000 3600000)
      [(⟨1, 42, 1, 0⟩ : DailyActivity)]) = some ⟨1, 42, 1, 0⟩ ∧
    (loadMetrics ⟨true, some ⟨[⟨1, 42, 1, 0⟩], [], [], 0, 0, none, none, none, []⟩,
      none, 84600000⟩).todayMessages = 0 := by
  decide

/-- Witness for C5 (amended), realizing the spec's own example: an entry
dated today (UTC) with `messageCount = 42` and no token entry dated today
yields `todayMessages = 42` and `todayTokens = 0`. -/
theorem loadMetrics_today_counters_witness :
    (loadMetrics ⟨true, some ⟨[⟨0, 42, 1, 3⟩], [⟨-1, [("claude-sonnet", 7)]⟩], [], 0, 0,
        none, none, none, []⟩, none, 0⟩).todayMessages = 42 ∧
    (loadMetrics ⟨true, some ⟨[⟨0, 42, 1, 3⟩], [⟨-1, [("claude-sonnet", 7)]⟩], [], 0, 0,
        none, none, none, []⟩, none, 0⟩).todayTokens = 0 := by
  have h := loadMetrics_today_counters
    ⟨true, some ⟨[⟨0, 42, 1, 3⟩], [⟨-1, [("claude-sonnet", 7)]⟩], [], 0, 0, none, none,
      none, []⟩, none, 0⟩
    ⟨[⟨0, 42, 1, 3⟩], [⟨-1, [("claude-sonnet", 7)]⟩], [], 0, 0, none, none, none, []⟩ rfl rfl
  exact ⟨h.1.trans (by decide), h.2.2.2.trans (by decide)⟩

/-! ## Remote Quota Source data types (`src/services/ClaudeAPIService.ts`) -/

/-- `QuotaResult` of `ClaudeAPIService.ts`. -/
structure QuotaResult where
  success : Bool
  data : Option QuotaData
  error : Option String
  deriving DecidableEq, Repr

/-! ## Refresh Orchestrator (`src/services/RefreshManager.ts`) -/

/-- `RefreshModeType` of `RefreshManager.ts`. -/
inductive RefreshModeType where
  | realtime
  | periodic
  | manual
  deriving DecidableEq, Repr

/-- Orchestrator state: the mode and its triggers, the concurrency-control
fields (`isRefreshing`, `lastMetrics`, `isDisposed`), instrumented with
call counters for the two data sources and the log of fired events so that
"performs no work" is observable. -/
structure RMState where
  currentMode : RefreshModeType
  fileWatcherActive : Bool
  periodicTimerActive : Bool
  isRefreshing : Bool
  lastMetrics : Option UsageMetrics
  isDisposed : Bool
  loadCalls : Nat
  fetchCalls : Nat
  refreshStartedEvents : Nat
  publishedMetrics : List UsageMetrics
  deriving DecidableEq, Repr

/-- Field initializers of the `RefreshManager` class. -/
def initialRMState : RMState :=
  ⟨.periodic, false, false, false, none, false, 0, 0, 0, []⟩

/-- `MIN_INTERVAL_MS` / `MAX_INTERVAL_MS` and `clampInterval` of
`RefreshManager.ts`. -/
def clampInterval (intervalMs : Int) : Int :=
  max 3000 (min 300000 intervalMs)

/-- `stopCurrentMode`: dispose the file watcher, clear the periodic timer. -/
def stopCurrentMode (s : RMState) : RMState :=
  { s with fileWatcherActive := false, periodicTimerActive := false }

/-- `setMode` of `RefreshManager.ts` (interval values only set trigger
frequency, not which triggers exist, so they are not part of the state). -/
def setMode (s : RMState) (mode : RefreshModeType) : RMState :=
  if s.isDisposed then s
  else
    let s1 := { stopCurrentMode s with currentMode := mode }
    match mode with
    | .realtime => { s1 with fileWatcherActive := true, periodicTimerActive := true }
    | .periodic => { s1 with periodicTimerActive := true }
    | .manual => s1

/-- `dispose` of `RefreshManager.ts`: set the permanent disposed flag and
tear down the current mode's triggers (event emitters and subscriptions are
released; no further events can fire). -/
def dispose (s : RMState) : RMState :=
  { stopCurrentMode s with isDisposed := true }

/-- What the in-refresh `await this.apiService.fetchQuota()` settles to:
a `QuotaResult`, or a thrown value (`some msg` = an `Error` with that
message, `none` = a non-`Error` throw). -/
inductive QuotaStep where
  | ok (result : QuotaResult)
  | thrown (msg : Option String)
  deriving DecidableEq, Repr

/-- Environment of one `refresh` invocation: the clock and what the two
awaited data sources return for this invocation. -/
structure RefreshEnv where
  now : Int
  loadResult : UsageMetrics
  quotaStep : QuotaStep
  deriving DecidableEq, Repr

/-- The quota merge inside `refresh`: on success attach the quota block,
otherwise record the quota error and leave `quota` unset. -/
def mergeQuota (metrics : UsageMetrics) (q : QuotaStep) : UsageMetrics :=
  match q with
  | .ok quotaResult =>
    if quotaResult.success = true ∧ quotaResult.data.isSome = true then
      { metrics with quota := quotaResult.data }
    else
      { metrics with quotaError := quotaResult.error }
  | .thrown msg => { metrics with quotaError := some (msg.getD "Failed to fetch quota") }

/-- The guard section of `refresh`, up to the first suspension point:
`some metrics` means the call returned immediately (disposed, or a refresh
already in flight); `none` means it set the in-flight flag, fired
"refresh started" and initiated the local load. -/
def refreshEntry (s : RMState) (now : Int) : RMState × Option UsageMetrics :=
  if s.isDisposed = true then (s, some (s.lastMetrics.getD (createEmptyMetrics now)))
  else if s.isRefreshing = true then (s, some (s.lastMetrics.getD (createEmptyMetrics now)))
  else
    ({ s with
        isRefreshing := true
        refreshStartedEvents := s.refreshStartedEvents + 1
        loadCalls := s.loadCalls + 1 }, none)

/-- The remainder of `refresh` after the local load and the quota fetch
settle: merge, cache as last-known, publish, clear the in-flight flag (the
`finally` block).  There is no suspension point between caching and the
flag reset. -/
def refreshFinish (s : RMState) (loadResult : UsageMetrics) (q : QuotaStep) :
    RMState × UsageMetrics :=
  let metrics := mergeQuota loadResult q
  ({ s with
      fetchCalls := s.fetchCalls + 1
      lastMetrics := some metrics
      publishedMetrics := s.publishedMetrics ++ [metrics]
      isRefreshing := false }, metrics)

/-- `refresh` of `RefreshManager.ts`, run to completion with no
interleaved invocation. -/
def refresh (s : RMState) (env : RefreshEnv) : RMState × UsageMetrics :=
  match refreshEntry s env.now with
  | (s1, some metrics) => (s1, metrics)
  | (s1, none) => refreshFinish s1 env.loadResult env.quotaStep

/-- Two concurrent `refresh` calls on the single-threaded event loop:
caller A passes the guard and suspends awaiting the local load; caller B's
entire invocation runs while A's in-flight flag is set; then A's awaited
results settle and A finishes.  Returns the final state, A's result and
B's result. -/
def twoConcurrentRefresh (s : RMState) (envA envB : RefreshEnv) :
    RMState × UsageMetrics × UsageMetrics :=
  let a := refreshEntry s envA.now
  let b := refresh a.1 envB
  let afin := refreshFinish b.1 envA.loadResult envA.quotaStep
  (afin.1, afin.2, b.2)

/-- C1 (amended): while a refresh is in flight, a second `refresh` call
performs no local load and no quota fetch, fires no event, publishes
nothing, and returns the last known snapshot immediately (a fresh empty
snapshot when none exists); exactly one load + fetch sequence runs in
total and the in-flight flag is clear afterwards.  But the two callers do
**not** resolve to the same snapshot: the blocked caller observes the
previous snapshot while the working caller resolves with the newly
produced one. -/
theorem refresh_single_flight (s : RMState) (envA envB : RefreshEnv)
    (hd : s.isDisposed = false) (hr : s.isRefreshing = false) :
    (twoConcurrentRefresh s envA envB).2.2 =
      s.lastMetrics.getD (createEmptyMetrics envB.now) ∧
    (twoConcurrentRefresh s envA envB).1.loadCalls = s.loadCalls + 1 ∧
    (twoConcurrentRefresh s envA envB).1.fetchCalls = s.fetchCalls + 1 ∧
    (twoConcurrentRefresh s envA envB).1.refreshStartedEvents =
      s.refreshStartedEvents + 1 ∧
    (twoConcurrentRefresh s envA envB).2.1 = mergeQuota envA.loadResult envA.quotaStep ∧
    (twoConcurrentRefresh s envA envB).1.publishedMetrics =
      s.publishedMetrics ++ [mergeQuota envA.loadResult envA.quotaStep] ∧
    (twoConcurrentRefresh s envA envB).1.lastMetrics =
      some (mergeQuota envA.loadResult envA.quotaStep) ∧
    (twoConcurrentRefresh s envA envB).1.isRefreshing = false := by
  simp [twoConcurrentRefresh, refresh, refreshEntry, refreshFinish, hd, hr]

/-- Witness for C1 (amended) at a concrete state with a cached snapshot. -/
theorem refresh_single_flight_witness :
    (twoConcurrentRefresh
        { initialRMState with lastMetrics := some (createEmptyMetrics 1) }
        ⟨2, { createEmptyMetrics 2 with todayMessages := 7, dataAvailable := true },
          .thrown none⟩
        ⟨3, createEmptyMetrics 3, .ok ⟨true, none, none⟩⟩).2.2 =
      (createEmptyMetrics 1) ∧
    (twoConcurrentRefresh
        { initialRMState with lastMetrics := some (createEmptyMetrics 1) }
        ⟨2, { createEmptyMetrics 2 with todayMessages := 7, dataAvailable := true },
          .thrown none⟩
        ⟨3, createEmptyMetrics 3, .ok ⟨true, none, none⟩⟩).1.loadCalls = 1 ∧
    (twoConcurrentRefresh
        { initialRMState with lastMetrics := some (createEmptyMetrics 1) }
        ⟨2, { createEmptyMetrics 2 with todayMessages := 7, dataAvailable := true },
          .thrown none⟩
        ⟨3, createEmptyMetrics 3, .ok ⟨true, none, none⟩⟩).1.fetchCalls = 1 := by
  have h := refresh_single_flight
    { initialRMState with lastMetrics := some (createEmptyMetrics 1) }
    ⟨2, { createEmptyMetrics 2 with todayMessages := 7, dataAvailable := true }, .thrown none⟩
    ⟨3, createEmptyMetrics 3, .ok ⟨true, none, none⟩⟩ rfl rfl
  exact ⟨h.1.trans (by decide), h.2.1.trans (by decide), h.2.2.1.trans (by decide)⟩

/-- Counterexample to C1 as stated: at a concrete state with a cached
previous snapshot, the two concurrent callers resolve to different
snapshots — the working caller gets the newly merged snapshot, the blocked
caller gets the previously cached one. -/
theorem refresh_same_snapshot_counterexample :
    ({ initialRMState with
        lastMetrics := some (createEmptyMetrics 1) } : RMState).isRefreshing = false ∧
    ({ initialRMState with
        lastMetrics := some (createEmptyMetrics 1) } : RMState).isDisposed = false ∧
    (twoConcurrentRefresh
        { initialRMState with lastMetrics := some (createEmptyMetrics 1) }
        ⟨2, { createEmptyMetrics 2 with todayMessages := 7, dataAvailable := true },
          .thrown none⟩
        ⟨3, createEmptyMetrics 3, .ok ⟨true, none, none⟩⟩).2.1 ≠
      (twoConcurrentRefresh
        { initialRMState with lastMetrics := some (createEmptyMetrics 1) }
        ⟨2, { createEmptyMetrics 2 with todayMessages := 7, dataAvailable := true },
          .thrown none⟩
        ⟨3, createEmptyMetrics 3, .ok ⟨true, none, none⟩⟩).2.2 := by
  decide

/-- C7: once disposed, `refresh` returns the cached snapshot (or an empty
one) with the state verbatim unchanged — the local data source and remote
quota source are not invoked, no events fire, nothing is published — and
`setMode` is a no-op; `dispose` sets the permanent flag and neither
`refresh` nor `setMode` ever clears it. -/
theorem disposed_refresh_noop (s : RMState) (env : RefreshEnv) (mode : RefreshModeType)
    (hd : s.isDisposed = true) :
    refresh s env = (s, s.lastMetrics.getD (createEmptyMetrics env.now)) ∧
    setMode s mode = s ∧
    (dispose s).isDisposed = true ∧
    (refresh s env).1.isDisposed = s.isDisposed ∧
    (setMode s mode).isDisposed = s.isDisposed := by
  refine ⟨?_, ?_, ?_, ?_, ?_⟩
  · simp [refresh, refreshEntry, hd]
  · simp [setMode, hd]
  · simp [dispose, stopCurrentMode]
  · simp [refresh, refreshEntry, hd]
  · simp [setMode, hd]

/-- Witness for C7: dispose a state holding a cached snapshot, then refresh
and set a mode — the state is unchanged and the cached snapshot returned. -/
theorem disposed_refresh_noop_witness :
    refresh (dispose { initialRMState with lastMetrics := some (createEmptyMetrics 4) })
        ⟨9, createEmptyMetrics 9, .thrown none⟩ =
      (dispose { initialRMState with lastMetrics := some (createEmptyMetrics 4) },
       createEmptyMetrics 4) ∧
    setMode (dispose { initialRMState with lastMetrics := some (createEmptyMetrics 4) })
        .realtime =
      dispose { initialRMState with lastMetrics := some (createEmptyMetrics 4) } := by
  have h := disposed_refresh_noop
    (dispose { initialRMState with lastMetrics := some (createEmptyMetrics 4) })
    ⟨9, createEmptyMetrics 9, .thrown none⟩ .realtime (by decide)
  exact ⟨h.1.trans (by decide), h.2.1⟩

/-! ## The snapshot invariant (C6) -/

/-- "All counters are zero/empty": every counter, series and breakdown
field of a `UsageMetrics` is at its empty value. -/
def countersEmpty (m : UsageMetrics) : Prop :=
  m.todayTokens = 0 ∧ m.todayMessages = 0 ∧ m.todaySessions = 0 ∧ m.todayToolCalls = 0 ∧
  m.modelUsage = [] ∧ m.totalSessions = 0 ∧ m.totalMessages = 0 ∧ m.longestSession = none ∧
  m.firstSessionDate = none ∧ m.lastComputedDate = none ∧ m.dailyActivity = [] ∧
  m.dailyModelTokens = [] ∧ m.hourlyDistribution = [] ∧ m.totalInputTokens = 0 ∧
  m.totalOutputTokens = 0 ∧ m.totalCacheReadTokens = 0 ∧ m.totalCacheCreationTokens = 0

/-- The snapshot invariant exactly as the spec states it. -/
def snapshotInvariant (m : UsageMetrics) : Prop :=
  (m.dataAvailable = false → countersEmpty m ∧ m.error.isSome = true) ∧
  ¬(m.quota.isSome = true ∧ m.quotaError.isSome = true)

/-- The part of the invariant that holds of every snapshot the core
produces (the `error`-is-set clause fails on the empty snapshot). -/
def weakSnapshotInvariant (m : UsageMetrics) : Prop :=
  (m.dataAvailable = false → countersEmpty m) ∧
  ¬(m.quota.isSome = true ∧ m.quotaError.isSome = true)

instance (m : UsageMetrics) : Decidable (countersEmpty m) := by
  unfold countersEmpty; infer_instance

instance (m : UsageMetrics) : Decidable (snapshotInvariant m) := by
  unfold snapshotInvariant; infer_instance

instance (m : UsageMetrics) : Decidable (weakSnapshotInvariant m) := by
  unfold weakSnapshotInvariant; infer_instance

theorem createEmptyMetrics_weak (now : Int) :
    weakSnapshotInvariant (createEmptyMetrics now) := by
  refine ⟨fun _ => ?_, ?_⟩ <;> simp [createEmptyMetrics, countersEmpty]

theorem populateFromStatsCache_meta (today : Int) (metrics : UsageMetrics)
    (stats : StatsCache) :
    (populateFromStatsCache today metrics stats).quota = metrics.quota ∧
    (populateFromStatsCache today metrics stats).quotaError = metrics.quotaError ∧
    (populateFromStatsCache today metrics stats).dataAvailable = metrics.dataAvailable ∧
    (populateFromStatsCache today metrics stats).error = metrics.error := by
  simp only [populateFromStatsCache]
  rcases hact : stats.dailyActivity.find? (fun d => d.date = today) with _ | a <;>
    rcases htok : stats.dailyModelTokens.find? (fun d => d.date = today) with _ | t <;>
      simp [hact, htok]

theorem loadMetrics_fields (env : DataEnv) :
    (loadMetrics env).quota = none ∧ (loadMetrics env).quotaError = none ∧
    ((loadMetrics env).dataAvailable = false ↔ env.dirExists = false) ∧
    (env.dirExists = false → (loadMetrics env).error.isSome = true ∧
      countersEmpty (loadMetrics env)) := by
  simp only [loadMetrics]
  by_cases hdir : env.dirExists = false
  · simp [hdir, createEmptyMetrics, countersEmpty]
  · have hmeta : ∀ stats : StatsCache,
        (populateFromStatsCache (getTodayDateString env.nowMs) (createEmptyMetrics env.nowMs)
          stats).quota = none ∧
        (populateFromStatsCache (getTodayDateString env.nowMs) (createEmptyMetrics env.nowMs)
          stats).quotaError = none := fun stats => by
      have h := populateFromStatsCache_meta (getTodayDateString env.nowMs)
        (createEmptyMetrics env.nowMs) stats
      exact ⟨h.1.trans rfl, h.2.1.trans rfl⟩
    simp only [createEmptyMetrics] at hmeta
    rcases hstats : env.statsCache with _ | stats <;>
      rcases hcred : env.credentials with _ | file
    · simp [hdir, hstats, hcred, createEmptyMetrics]
    · rcases hoauth : file.claudeAiOauth with _ | oauth <;>
        simp [hdir, hstats, hcred, hoauth, createEmptyMetrics]
    · simp [hdir, hstats, hcred, (hmeta stats).1, (hmeta stats).2, createEmptyMetrics]
    · rcases hoauth : file.claudeAiOauth with _ | oauth <;>
        simp [hdir, hstats, hcred, hoauth, (hmeta stats).1, (hmeta stats).2,
          createEmptyMetrics]

theorem loadMetrics_snapshot_invariant (env : DataEnv) :
    snapshotInvariant (loadMetrics env) := by
  obtain ⟨hq, hqe, hda, herr⟩ := loadMetrics_fields env
  refine ⟨fun h => ⟨(herr (hda.mp h)).2, (herr (hda.mp h)).1⟩, ?_⟩
  rintro ⟨h1, _⟩
  rw [hq] at h1
  simp at h1

theorem mergeQuota_weak (m : UsageMetrics) (q : QuotaStep)
    (hq : m.quota = none) (hqe : m.quotaError = none) :
    (mergeQuota m q).dataAvailable = m.dataAvailable ∧
    (countersEmpty m → countersEmpty (mergeQuota m q)) ∧
    ¬((mergeQuota m q).quota.isSome = true ∧ (mergeQuota m q).quotaError.isSome = true) := by
  rcases q with r | msg
  · by_cases hs : r.success = true ∧ r.data.isSome = true <;>
      simp [mergeQuota, hs, countersEmpty, hq, hqe]
  · simp [mergeQuota, countersEmpty, hq, hqe]

theorem refresh_result_weak (s : RMState) (env : RefreshEnv) (data : DataEnv)
    (hload : env.loadResult = loadMetrics data)
    (hlast : ∀ m, s.lastMetrics = some m → weakSnapshotInvariant m) :
    weakSnapshotInvariant (refresh s env).2 := by
  obtain ⟨hq, hqe, hda, herr⟩ := loadMetrics_fields data
  have hinv := loadMetrics_snapshot_invariant data
  simp only [refresh, refreshEntry]
  by_cases hd : s.isDisposed = true
  · rcases hl : s.lastMetrics with _ | m
    · simpa [hd, hl] using createEmptyMetrics_weak env.now
    · simpa [hd, hl] using hlast m hl
  · by_cases hr : s.isRefreshing = true
    · rcases hl : s.lastMetrics with _ | m
      · simpa [hd, hr, hl] using createEmptyMetrics_weak env.now
      · simpa [hd, hr, hl] using hlast m hl
    · have hm := mergeQuota_weak (loadMetrics data) env.quotaStep hq hqe
      simp only [hd, hr, refreshFinish, hload]
      refine ⟨fun h => ?_, ?_⟩
      · simp only at h
        exact hm.2.1 ((hinv.1 (by rw [← hm.1]; simpa using h)).1)
      · simpa using hm.2.2

/-- Counterexample to C6 as stated: the empty snapshot (returned by
`createEmptyMetrics`, and by `refresh` before any data exists) has
`dataAvailable = false` with all counters empty but its `error` field
unset, so the claimed invariant fails on it. -/
theorem emptyMetrics_invariant_counterexample :
    (createEmptyMetrics 0).dataAvailable = false ∧
    countersEmpty (createEmptyMetrics 0) ∧
    (createEmptyMetrics 0).error = none ∧
    ¬ snapshotInvariant (createEmptyMetrics 0) := by
  refine ⟨by decide, by decide, by decide, fun h => ?_⟩
  have := (h.1 (by decide)).2
  simp [createEmptyMetrics] at this

/-- C6 (amended): every snapshot the core produces — the empty snapshot,
`loadMetrics` outputs, and `refresh` outputs — has all counters zero/empty
whenever `dataAvailable = false`, and never has `quota` and `quotaError`
both set.  `loadMetrics` outputs additionally have `error` set whenever
`dataAvailable = false`; the empty snapshot does not (its `error` is
unset). -/
theorem snapshot_invariant_all_outputs :
    (∀ now, weakSnapshotInvariant (createEmptyMetrics now) ∧
      (createEmptyMetrics now).error = none) ∧
    (∀ env, snapshotInvariant (loadMetrics env)) ∧
    (∀ s env data, env.loadResult = loadMetrics data →
      (∀ m, s.lastMetrics = some m → weakSnapshotInvariant m) →
      weakSnapshotInvariant (refresh s env).2) := by
  exact ⟨fun now => ⟨createEmptyMetrics_weak now, rfl⟩,
    loadMetrics_snapshot_invariant,
    fun s env data hload hlast => refresh_result_weak s env data hload hlast⟩

/-- Witness for C6 (amended): concrete instances — a refresh whose local
load failed on a missing directory and whose quota fetch succeeded with an
empty block, starting from a cached empty snapshot. -/
theorem snapshot_invariant_all_outputs_witness :
    weakSnapshotInvariant (createEmptyMetrics 0) ∧
    snapshotInvariant (loadMetrics ⟨false, none, none, 0⟩) ∧
    weakSnapshotInvariant
      (refresh { initialRMState with lastMetrics := some (createEmptyMetrics 1) }
        ⟨5, loadMetrics ⟨false, none, none, 0⟩,
          .ok ⟨true, some ⟨none, none, none, none⟩, none⟩⟩).2 := by
  refine ⟨(snapshot_invariant_all_outputs.1 0).1,
    snapshot_invariant_all_outputs.2.1 ⟨false, none, none, 0⟩,
    snapshot_invariant_all_outputs.2.2
      { initialRMState with lastMetrics := some (createEmptyMetrics 1) }
      ⟨5, loadMetrics ⟨false, none, none, 0⟩,
        .ok ⟨true, some ⟨none, none, none, none⟩, none⟩⟩
      ⟨false, none, none, 0⟩ rfl ?_⟩
  intro m hm
  rw [Option.some_inj] at hm
  rw [← hm]
  exact createEmptyMetrics_weak 1

/-! ## Change Notifier (`FileWatcher`, `src/services/FileWatcher.ts`)

Timed trace semantics: the watcher state is folded over a time-ordered list
of external actions (an underlying filesystem event on the watched file, or
a `stop()` call).  A pending debounce timer fires as soon as the clock
reaches its deadline — modelled by firing it, before handling an action,
whenever its deadline has passed, and at the end of the trace. -/

/-- External actions delivered to the watcher. -/
inductive WatchAction where
  | fsEvent
  | stopCmd
  deriving DecidableEq, Repr

/-- Watcher state: whether `fs.watch` is active, the deadline of the
pending debounce timer (if any), and the times at which the `onFileChanged`
signal fired. -/
structure FWState where
  watching : Bool
  debounceDeadline : Option Nat
  emitted : List Nat
  deriving DecidableEq, Repr

/-- `debounceMs` of `FileWatcher.ts` (default 500). -/
def debounceMs : Nat := 500

/-- Fire the pending debounce timer if its deadline is at or before `t`. -/
def fireIfDue (s : FWState) (t : Nat) : FWState :=
  match s.debounceDeadline with
  | some d => if d ≤ t then { s with debounceDeadline := none, emitted := s.emitted ++ [d] }
    else s
  | none => s

/-- `handleFileChange` of `FileWatcher.ts`: cancel any pending timer and
arm a fresh one `debounceMs` after this (most recent) event. -/
def handleFileChange (s : FWState) (t : Nat) : FWState :=
  { s with debounceDeadline := some (t + debounceMs) }

/-- `stop` of `FileWatcher.ts`: close the watcher and cancel the pending
debounce timer. -/
def fwStop (s : FWState) : FWState :=
  { s with watching := false, debounceDeadline := none }

/-- Handle one timed action.  Filesystem events only reach
`handleFileChange` while `fs.watch` is active (after `stop()` the watcher
is closed and delivers nothing). -/
def fwStep (s : FWState) (ev : Nat × WatchAction) : FWState :=
  let s1 := fireIfDue s ev.1
  match ev.2 with
  | .fsEvent => if s1.watching = true then handleFileChange s1 ev.1 else s1
  | .stopCmd => fwStop s1

/-- Let a still-pending timer expire after the last action of the trace. -/
def fwFlush (s : FWState) : FWState :=
  match s.debounceDeadline with
  | some d => { s with debounceDeadline := none, emitted := s.emitted ++ [d] }
  | none => s

/-- State after a successful `start()` (watched directory exists). -/
def fwStart : FWState := ⟨true, none, []⟩

/-- Run the watcher over a whole time-ordered action trace. -/
def runWatcher (trace : List (Nat × WatchAction)) : FWState :=
  fwFlush (trace.foldl fwStep fwStart)

theorem fwStep_stopped (s : FWState) (ev : Nat × WatchAction)
    (hw : s.watching = false) (hd : s.debounceDeadline = none) :
    fwStep s ev = s := by
  rcases s with ⟨w, dd, em⟩
  obtain rfl : w = false := hw
  obtain rfl : dd = (none : Option Nat) := hd
  rcases ev with ⟨t, act⟩
  cases act <;> simp [fwStep, fireIfDue, fwStop]

theorem foldl_fwStep_stopped (rest : List (Nat × WatchAction)) (s : FWState)
    (hw : s.watching = false) (hd : s.debounceDeadline = none) :
    rest.foldl fwStep s = s := by
  induction rest with
  | nil => rfl
  | cons ev rest ih =>
    rw [List.foldl_cons, fwStep_stopped s ev hw hd]
    exact ih

/-- During a burst whose consecutive gaps stay below the debounce window,
each event just re-arms the timer: no signal fires, and the deadline tracks
the most recent event. -/
theorem fw_burst_accumulates (ts : List Nat) (t0 : Nat) (em : List Nat)
    (hchain : List.Chain (fun a b => a ≤ b ∧ b < a + debounceMs) t0 ts) :
    (ts.map (fun t => (t, WatchAction.fsEvent))).foldl fwStep
        ⟨true, some (t0 + debounceMs), em⟩ =
      ⟨true, some (ts.getLastD t0 + debounceMs), em⟩ := by
  induction ts generalizing t0 with
  | nil => rfl
  | cons t1 rest ih =>
    rcases hchain with _ | ⟨⟨hle, hlt⟩, hchain'⟩
    have hstep : fwStep ⟨true, some (t0 + debounceMs), em⟩ (t1, WatchAction.fsEvent) =
        ⟨true, some (t1 + debounceMs), em⟩ := by
      simp [fwStep, fireIfDue, handleFileChange, Nat.not_le.mpr hlt]
    rw [List.map_cons, List.foldl_cons, hstep, ih t1 hchain', List.getLastD_cons]

/-- C8: a burst of `N ≥ 1` filesystem events whose consecutive gaps are all
below the debounce window produces exactly one emitted signal, fired one
debounce window after the most recent event; and once `stop()` runs, no
signal is ever emitted afterwards — the emitted log at the end of any trace
equals the log at the moment of the stop (the pending timer is cancelled,
later events are not delivered). -/
theorem fileWatcher_debounce_spec :
    (∀ t1 ts, List.Chain (fun a b => a ≤ b ∧ b < a + debounceMs) t1 ts →
      runWatcher ((t1 :: ts).map (fun t => (t, WatchAction.fsEvent))) =
        ⟨true, none, [ts.getLastD t1 + debounceMs]⟩) ∧
    (∀ pre rest tstop,
      (runWatcher (pre ++ (tstop, WatchAction.stopCmd) :: rest)).emitted =
        ((pre ++ [(tstop, WatchAction.stopCmd)]).foldl fwStep fwStart).emitted) := by
  constructor
  · intro t1 ts hchain
    have hfirst : fwStep fwStart (t1, WatchAction.fsEvent) =
        ⟨true, some (t1 + debounceMs), []⟩ := by
      simp [fwStep, fwStart, fireIfDue, handleFileChange]
    simp only [runWatcher, List.map_cons, List.foldl_cons, hfirst]
    rw [fw_burst_accumulates ts t1 [] hchain]
    simp [fwFlush]
  · intro pre rest tstop
    have hstopped : ∀ s : FWState, (fwStep s (tstop, WatchAction.stopCmd)).watching = false ∧
        (fwStep s (tstop, WatchAction.stopCmd)).debounceDeadline = none := by
      intro s
      simp [fwStep, fwStop]
    simp only [runWatcher, List.foldl_append, List.foldl_cons]
    set s1 := fwStep (pre.foldl fwStep fwStart) (tstop, WatchAction.stopCmd) with hs1
    obtain ⟨hw, hd⟩ := hstopped (pre.foldl fwStep fwStart)
    rw [← hs1] at hw hd
    rw [foldl_fwStep_stopped rest s1 hw hd]
    simp [fwFlush, hd]

/-- Witness for C8: the three-event burst at times 0, 100, 199 emits the
single signal at `199 + 500`; and a trace with a stop at time 300 followed
by more filesystem events emits nothing at all. -/
theorem fileWatcher_debounce_spec_witness :
    runWatcher [(0, WatchAction.fsEvent), (100, WatchAction.fsEvent),
        (199, WatchAction.fsEvent)] = ⟨true, none, [699]⟩ ∧
    (runWatcher [(0, WatchAction.fsEvent), (300, WatchAction.stopCmd),
        (400, WatchAction.fsEvent), (900, WatchAction.fsEvent)]).emitted = [] := by
  constructor
  · have h := fileWatcher_debounce_spec.1 0 [100, 199]
      (by constructor <;> simp [debounceMs])
    simpa using h
  · have h := fileWatcher_debounce_spec.2 [(0, WatchAction.fsEvent)]
      [(400, WatchAction.fsEvent), (900, WatchAction.fsEvent)] 300
    have h2 : runWatcher [(0, WatchAction.fsEvent), (300, WatchAction.stopCmd),
        (400, WatchAction.fsEvent), (900, WatchAction.fsEvent)] =
        runWatcher ([(0, WatchAction.fsEvent)] ++ (300, WatchAction.stopCmd) ::
          [(400, WatchAction.fsEvent), (900, WatchAction.fsEvent)]) := rfl
    rw [h2, h]
    decide

/-! ## Remote Quota Source operations (`src/services/ClaudeAPIService.ts`) -/

/-- `RetryableAPIError` of `ClaudeAPIService.ts`. -/
structure RetryableAPIError where
  message : String
  statusCode : Option Nat
  deriving DecidableEq, Repr

/-- Outcome of one attempt of the usage-endpoint HTTP request: a response
with its status code (`none` = JS `undefined`) and — for 200 responses —
the body's parse result (`none` = `JSON.parse` throws); or the 10-second
timeout; or a network-layer fault (connection reset/refused, DNS failure,
...) with its message. -/
inductive UsageAttempt where
  | response (statusCode : Option Nat) (body : Option QuotaData)
  | timeout
  | networkError (msg : String)
  deriving DecidableEq, Repr

/-- The non-`resolve` outcomes of `processUsageApiResponse`: a thrown
`RetryableAPIError`, or the `JSON.parse` exception on a 200 body. -/
inductive ProcessErr where
  | retryable (e : RetryableAPIError)
  | parseError
  deriving DecidableEq, Repr

/-- `processUsageApiResponse` of `ClaudeAPIService.ts`. -/
def processUsageApiResponse (statusCode : Option Nat) (body : Option QuotaData) :
    Except ProcessErr QuotaResult :=
  if statusCode = some 200 then
    match body with
    | some quotaData => .ok ⟨true, some quotaData, none⟩
    | none => .error .parseError
  else if statusCode = some 401 then
    .ok ⟨false, none, some "Authentication failed. Please log in to Claude Code again."⟩
  else
    match statusCode with
    | some code =>
      if isRetryableHttpStatus code then
        .error (.retryable ⟨if code = 429 then "Rate limited. Please try again later."
          else "Server error: " ++ toString code, some code⟩)
      else .ok ⟨false, none, some ("API error: " ++ toString code)⟩
    | none => .ok ⟨false, none, some "API error: undefined"⟩

/-- `callUsageAPIWithRetry` together with `handleUsageApiEnd`: a timeout or
request error rejects with a `RetryableAPIError`; a thrown
`RetryableAPIError` from response processing is passed to `reject`; the
`JSON.parse` failure on a 200 body resolves with a failed `QuotaResult`. -/
def callUsageAPIWithRetry (outcome : UsageAttempt) : Except RetryableAPIError QuotaResult :=
  match outcome with
  | .timeout => .error ⟨"Request timeout", none⟩
  | .networkError msg => .error ⟨"Network error: " ++ msg, none⟩
  | .response statusCode body =>
    match processUsageApiResponse statusCode body with
    | .ok r => .ok r
    | .error (.retryable e) => .error e
    | .error .parseError => .ok ⟨false, none, some "Failed to parse quota data"⟩

/-- The options `fetchQuota` passes to `withRetry` (merged over the
defaults).  Every rejection of `callUsageAPIWithRetry` is a
`RetryableAPIError`, so the source's
`error instanceof RetryableAPIError ? true : isNetworkError(error)`
predicate is constantly true at this error type. -/
def quotaRetryOptions : RetryOptions RetryableAPIError :=
  { defaultRetryOptions RetryableAPIError with
    maxAttempts := 3
    initialDelayMs := 1000
    maxDelayMs := 5000
    isRetryable := fun _ => true }

/-- `isTokenExpired` of `ClaudeAPIService.ts` (5-minute safety buffer):
`Date.now() > expiresAt - 5 * 60 * 1000`. -/
def isTokenExpired (nowMs expiresAt : Int) : Bool :=
  expiresAt - 5 * 60 * 1000 < nowMs

/-- Fields of a 200 body of the token-refresh endpoint that
`refreshToken` consumes (`Option` for the JS-falsy `||` fallbacks). -/
structure TokenResponse where
  access_token : String
  refresh_token : Option String
  expires_in : Int
  scope : Option String
  subscription_type : Option String
  rate_limit_tier : Option String
  deriving DecidableEq, Repr

/-- The new `OAuthCredentials` that `refreshToken` builds from a 200
response. -/
def credsOfResponse (nowMs : Int) (oldRefreshToken : String) (resp : TokenResponse) :
    OAuthCredentials :=
  { accessToken := resp.access_token
    refreshToken := resp.refresh_token.getD oldRefreshToken
    expiresAt := nowMs + resp.expires_in * 1000
    scopes := (resp.scope.map (fun sc => sc.splitOn " ")).getD []
    subscriptionType := resp.subscription_type.getD "unknown"
    rateLimitTier := resp.rate_limit_tier.getD "unknown" }

/-- `saveCredentials` of `ClaudeAPIService.ts`: re-read the credentials
file, replace only its `claudeAiOauth` member, write it back.  A read or
parse failure is caught and logged, writing nothing.  Returns the file
state afterwards and the list of writes performed. -/
def saveCredentials (file : Option CredentialsFile) (creds : OAuthCredentials) :
    Option CredentialsFile × List CredentialsFile :=
  match file with
  | none => (none, [])
  | some f =>
    (some { f with claudeAiOauth := some creds }, [{ f with claudeAiOauth := some creds }])

/-- Observable outcome of one `fetchQuota` call: the settled result, the
credentials-file writes performed, the file state afterwards, the access
token sent to the usage endpoint (`none` when the endpoint was never
called), and the usage-call count and backoff delays of the retry stage. -/
structure FetchQuotaRun where
  result : QuotaResult
  writes : List CredentialsFile
  fileAfter : Option CredentialsFile
  usedToken : Option String
  calls : Nat
  delays : List Int
  deriving DecidableEq, Repr

/-- Environment of one `fetchQuota` call: the credentials file
(`none` = missing or unparsable), the clock, the token-refresh outcome
(`none` = non-200 / timeout / request error / parse error, which all
resolve `null` in the source), the usage-endpoint outcome of each attempt,
and the jitter draws. -/
structure APIEnv where
  credFile : Option CredentialsFile
  nowMs : Int
  tokenResponse : Option TokenResponse
  usageOutcome : Nat → UsageAttempt
  random : Nat → ℚ

/-- The retry stage of `fetchQuota`: the `withRetry` call and the
surrounding `catch` that turns a thrown error into a failed result. -/
def runUsageStage (creds : OAuthCredentials) (fileState : Option CredentialsFile)
    (writes : List CredentialsFile) (env : APIEnv) : FetchQuotaRun :=
  let r := withRetry (fun i => callUsageAPIWithRetry (env.usageOutcome i)) quotaRetryOptions
    env.random
  let result := match r.result with
    | .ok quotaResult => quotaResult
    | .error (some e) => ⟨false, none, some e.message⟩
    | .error none => ⟨false, none, some "Unknown error occurred"⟩
  ⟨result, writes, fileState, some creds.accessToken, r.calls, r.delays⟩

/-- `fetchQuota` of `ClaudeAPIService.ts`. -/
def fetchQuota (env : APIEnv) : FetchQuotaRun :=
  match env.credFile >>= (fun f => f.claudeAiOauth) with
  | none =>
    ⟨⟨false, none, some "No OAuth credentials found. Please log in to Claude Code first."⟩,
     [], env.credFile, none, 0, []⟩
  | some creds =>
    if isTokenExpired env.nowMs creds.expiresAt then
      match env.tokenResponse with
      | none =>
        ⟨⟨false, none,
          some "Failed to refresh OAuth token. Please log in to Claude Code again."⟩,
         [], env.credFile, none, 0, []⟩
      | some resp =>
        let newCreds := credsOfResponse env.nowMs creds.refreshToken resp
        let saved := saveCredentials env.credFile newCreds
        runUsageStage newCreds saved.1 saved.2 env
    else
      runUsageStage creds env.credFile [] env

/-- C3: a usage-endpoint attempt is thrown back to the retry loop if and
only if its HTTP status lies in {408, 429, 500, 502, 503, 504} or it is a
network-layer fault (timeout, connection reset/refused, DNS failure); every
thrown error satisfies the configured retry predicate, so it is retried
while attempts remain; and a 401 response is terminal — `fetchQuota`
resolves immediately with the reauthentication message after exactly one
usage call, with no retry and no delay. -/
theorem fetchQuota_retry_classification (env : APIEnv) (f : CredentialsFile)
    (creds : OAuthCredentials)
    (hfile : env.credFile = some f) (hoauth : f.claudeAiOauth = some creds)
    (hfresh : isTokenExpired env.nowMs creds.expiresAt = false) :
    (∀ code body, (∃ e, callUsageAPIWithRetry (.response (some code) body) = .error e) ↔
      code ∈ [408, 429, 500, 502, 503, 504]) ∧
    (∀ body e, callUsageAPIWithRetry (.response none body) ≠ .error e) ∧
    (∃ e, callUsageAPIWithRetry .timeout = .error e) ∧
    (∀ msg, ∃ e, callUsageAPIWithRetry (.networkError msg) = .error e) ∧
    (∀ e, quotaRetryOptions.isRetryable e = true) ∧
    (∀ code, isRetryableHttpStatus code = true ↔ code ∈ [408, 429, 500, 502, 503, 504]) ∧
    (∀ body, env.usageOutcome 0 = .response (some 401) body →
      fetchQuota env =
        ⟨⟨false, none, some "Authentication failed. Please log in to Claude Code again."⟩,
         [], env.credFile, some creds.accessToken, 1, []⟩) := by
  refine ⟨?_, ?_, ⟨⟨"Request timeout", none⟩, rfl⟩,
    fun msg => ⟨⟨"Network error: " ++ msg, none⟩, rfl⟩, fun e => rfl, ?_, ?_⟩
  · intro code body
    constructor
    · rintro ⟨e, he⟩
      by_contra hmem
      have hret : isRetryableHttpStatus code = false := by
        unfold isRetryableHttpStatus
        exact decide_eq_false hmem
      by_cases h200 : code = 200
      · subst h200
        rcases body with _ | q <;>
          simp [callUsageAPIWithRetry, processUsageApiResponse] at he
      · by_cases h401 : code = 401
        · subst h401
          simp [callUsageAPIWithRetry, processUsageApiResponse] at he
        · simp [callUsageAPIWithRetry, processUsageApiResponse, h200, h401, hret] at he
    · intro hmem
      have h200 : code ≠ 200 := by rintro rfl; revert hmem; decide
      have h401 : code ≠ 401 := by rintro rfl; revert hmem; decide
      have hret : isRetryableHttpStatus code = true := by
        unfold isRetryableHttpStatus
        exact decide_eq_true hmem
      refine ⟨⟨if code = 429 then "Rate limited. Please try again later."
        else "Server error: " ++ toString code, some code⟩, ?_⟩
      simp [callUsageAPIWithRetry, processUsageApiResponse, h200, h401, hret]
  · intro body e he
    rcases body with _ | q <;>
      simp [callUsageAPIWithRetry, processUsageApiResponse] at he
  · intro code
    unfold isRetryableHttpStatus
    exact decide_eq_true_iff
  · intro body h401
    have hstop := withRetryGo_stops (fun i => callUsageAPIWithRetry (env.usageOutcome i))
      quotaRetryOptions env.random 0 3 0 none
      (Except.ok ⟨false, none, some "Authentication failed. Please log in to Claude Code again."⟩)
      (by omega) (fun j hj => absurd hj (by omega))
      (.inl ⟨⟨false, none, some "Authentication failed. Please log in to Claude Code again."⟩,
        by simp [h401, callUsageAPIWithRetry, processUsageApiResponse], rfl⟩)
    simp only [fetchQuota, hfile, hoauth, Option.some_bind, hfresh, Bool.false_eq_true,
      if_false, runUsageStage, withRetry]
    rw [show quotaRetryOptions.maxAttempts.toNat = 3 from rfl, hstop]
    simp [hoauth, hfresh]

/-- Witness for C3: with fresh (non-expired) credentials, a 429 attempt is
thrown back for retry, a 404 is not, and a first-attempt 401 makes
`fetchQuota` resolve at once — one usage call, no delay, reauthentication
message. -/
theorem fetchQuota_retry_classification_witness :
    (∃ e, callUsageAPIWithRetry (.response (some 429) none) = .error e) ∧
    (¬ ∃ e, callUsageAPIWithRetry (.response (some 404) none) = .error e) ∧
    fetchQuota ⟨some ⟨some ⟨"tok0", "ref0", 2000000000000, [], "max", "t1"⟩, [("k", "v")]⟩,
        0, none, fun _ => .response (some 401) none, fun _ => 0⟩ =
      ⟨⟨false, none, some "Authentication failed. Please log in to Claude Code again."⟩,
       [], some ⟨some ⟨"tok0", "ref0", 2000000000000, [], "max", "t1"⟩, [("k", "v")]⟩,
       some "tok0", 1, []⟩ := by
  have h := fetchQuota_retry_classification
    ⟨some ⟨some ⟨"tok0", "ref0", 2000000000000, [], "max", "t1"⟩, [("k", "v")]⟩,
      0, none, fun _ => .response (some 401) none, fun _ => 0⟩
    ⟨some ⟨"tok0", "ref0", 2000000000000, [], "max", "t1"⟩, [("k", "v")]⟩
    ⟨"tok0", "ref0", 2000000000000, [], "max", "t1"⟩ rfl rfl (by decide)
  refine ⟨(h.1 429 none).mpr (by decide), ?_, (h.2.2.2.2.2.2 none rfl).trans (by decide)⟩
  intro hex
  exact absurd ((h.1 404 none).mp hex) (by decide)

/-- C9: when the token refresh succeeds during `fetchQuota`, exactly one
credentials-file write happens; its content is the previous file with only
the `claudeAiOauth` member replaced — every other member is preserved
verbatim — and it completes before the usage endpoint is called, which
then uses the refreshed access token.  In every situation without a
successful refresh, `fetchQuota` writes nothing; no run ever performs more
than one write. -/
theorem fetchQuota_credential_write (env : APIEnv) :
    (∀ f creds resp, env.credFile = some f → f.claudeAiOauth = some creds →
      isTokenExpired env.nowMs creds.expiresAt = true → env.tokenResponse = some resp →
      ∃ written : CredentialsFile,
        written.claudeAiOauth = some (credsOfResponse env.nowMs creds.refreshToken resp) ∧
        written.otherFields = f.otherFields ∧
        (fetchQuota env).writes = [written] ∧
        (fetchQuota env).fileAfter = some written ∧
        (fetchQuota env).usedToken =
          some (credsOfResponse env.nowMs creds.refreshToken resp).accessToken) ∧
    (∀ f creds, env.credFile = some f → f.claudeAiOauth = some creds →
      isTokenExpired env.nowMs creds.expiresAt = false →
      (fetchQuota env).writes = [] ∧ (fetchQuota env).fileAfter = env.credFile) ∧
    (env.tokenResponse = none → (fetchQuota env).writes = []) ∧
    (fetchQuota env).writes.length ≤ 1 := by
  refine ⟨?_, ?_, ?_, ?_⟩
  · intro f creds resp hcf hoa hexp hresp
    refine ⟨{ f with
        claudeAiOauth := some (credsOfResponse env.nowMs creds.refreshToken resp) },
      rfl, rfl, ?_, ?_, ?_⟩ <;>
      simp [fetchQuota, hcf, hoa, hexp, hresp, saveCredentials, runUsageStage]
  · intro f creds hcf hoa hexp
    constructor <;> simp [fetchQuota, hcf, hoa, hexp, runUsageStage]
  · intro hresp
    rcases hcf : env.credFile with _ | f
    · simp [fetchQuota, hcf]
    · rcases hoa : f.claudeAiOauth with _ | creds
      · simp [fetchQuota, hcf, hoa]
      · by_cases hexp : isTokenExpired env.nowMs creds.expiresAt = true
        · simp [fetchQuota, hcf, hoa, hexp, hresp]
        · simp [fetchQuota, hcf, hoa, hexp, runUsageStage]
  · rcases hcf : env.credFile with _ | f
    · simp [fetchQuota, hcf]
    · rcases hoa : f.claudeAiOauth with _ | creds
      · simp [fetchQuota, hcf, hoa]
      · by_cases hexp : isTokenExpired env.nowMs creds.expiresAt = true
        · rcases hresp : env.tokenResponse with _ | resp
          · simp [fetchQuota, hcf, hoa, hexp, hresp]
          · simp [fetchQuota, hcf, hoa, hexp, hresp, saveCredentials, runUsageStage]
        · simp [fetchQuota, hcf, hoa, hexp, runUsageStage]

/-- Witness for C9: expired credentials plus a successful refresh — the one
write replaces `claudeAiOauth`, keeps the file's other member
`("foo", "bar")`, and the usage call carries the refreshed token. -/
theorem fetchQuota_credential_write_witness :
    ∃ w : CredentialsFile,
      w.claudeAiOauth = some ⟨"newTok", "newRef", 1003600000, [], "unknown", "unknown"⟩ ∧
      w.otherFields = [("foo", "bar")] ∧
      (fetchQuota ⟨some ⟨some ⟨"oldTok", "oldRef", 0, [], "max", "t"⟩, [("foo", "bar")]⟩,
          1000000000, some ⟨"newTok", some "newRef", 3600, none, none, none⟩,
          fun _ => .response (some 200) (some ⟨none, none, none, none⟩),
          fun _ => 0⟩).writes = [w] ∧
      (fetchQuota ⟨some ⟨some ⟨"oldTok", "oldRef", 0, [], "max", "t"⟩, [("foo", "bar")]⟩,
          1000000000, some ⟨"newTok", some "newRef", 3600, none, none, none⟩,
          fun _ => .response (some 200) (some ⟨none, none, none, none⟩),
          fun _ => 0⟩).usedToken = some "newTok" := by
  obtain ⟨w, h1, h2, h3, h4, h5⟩ := (fetchQuota_credential_write
    ⟨some ⟨some ⟨"oldTok", "oldRef", 0, [], "max", "t"⟩, [("foo", "bar")]⟩,
      1000000000, some ⟨"newTok", some "newRef", 3600, none, none, none⟩,
      fun _ => .response (some 200) (some ⟨none, none, none, none⟩), fun _ => 0⟩).1
    ⟨some ⟨"oldTok", "oldRef", 0, [], "max", "t"⟩, [("foo", "bar")]⟩
    ⟨"oldTok", "oldRef", 0, [], "max", "t"⟩
    ⟨"newTok", some "newRef", 3600, none, none, none⟩ rfl rfl (by decide) rfl
  exact ⟨w, h1.trans (by decide), h2.trans (by decide), h3, h5.trans (by decide)⟩
